import Mathlib

/-!
Verification development for the authentication token lifecycle of the
api-auth-integresocial repository.

The repository contains two parallel implementations of the lifecycle:

* an Express implementation (`src/modules/auth` together with
  `src/shared/utils/jwt.utils.ts`, `src/config/redis.ts` and the auth
  middleware): JWT refresh tokens, rotation on refresh, a Redis-backed
  blacklist keyed by the raw token string, and the raw refresh token stored
  on the user record (`UserService.updateRefreshToken`);

* a NestJS implementation (`src/auth/services/auth.service.ts` plus the
  users service): opaque random refresh tokens, a `userSession` table that
  stores the sha256 hash of the refresh value, no rotation on refresh, and
  tenant selection that re-issues a tenant-scoped access token.

Both are embedded below (namespaces `Express` and `Nest`).  Machine integers
do not overflow in any of the modelled arithmetic (durations and instants are
modelled as `Nat` milliseconds/seconds, far below 2^53, so JS number
semantics coincide with `Nat` on all values involved).
-/

namespace AuthVerif

/-- Error classes thrown by the services (`UnauthorizedError` /
`UnauthorizedException`, `NotFoundError`, `ConflictError`, `ValidationError`,
`ForbiddenException`) plus dependency failures (Redis unavailable), paired
with the human-readable message the code attaches.  The pair is what a caller
observes of a failed operation. -/
inductive ErrKind
  | unauthorized
  | notFound
  | conflict
  | validation
  | forbidden
  | dependency
deriving DecidableEq, Repr

/-- An error value as observed by the caller: its class and its message. -/
structure Err where
  kind : ErrKind
  msg : String
deriving DecidableEq, Repr

namespace Express

/-- The JWT claims set produced and consumed by `JwtUtils`
(`src/shared/utils/jwt.utils.ts`): subject, optional email and role, the
unique token id `jti` (a UUID in the source, modelled as a `Nat` drawn from a
monotone counter), and the `type` discriminator (`"access"` or `"refresh"`). -/
structure Claims where
  sub : String
  email : Option String
  role : Option String
  jti : Nat
  typ : String
deriving DecidableEq, Repr

/-- A bearer token string, abstracted by how `jose.jwtVerify` with the server
key, issuer `"api-projeto"` and audience `"api-clients"` classifies it:

* `signed c e` — signature valid, issuer and audience correct, claims `c`,
  expiry instant `e` (seconds);
* `badClaims c e` — signature valid but issuer or audience wrong (jose
  raises `JWTClaimValidationFailed` before the expiry check);
* `badSig raw` — malformed or wrongly signed.

The source only ever compares raw token strings for equality (the blacklist
key `token:blacklist:<token>` and `user.refreshToken !== data.refreshToken`)
or feeds them to `JwtUtils`; prepending the fixed blacklist key prefix is
injective, so keying the modelled blacklist by the token itself is faithful. -/
inductive Tok
  | signed (c : Claims) (exp : Nat)
  | badClaims (c : Claims) (exp : Nat)
  | badSig (raw : String)
deriving DecidableEq, Repr

/-- `NODE_ENV` as validated by `src/config/environment.ts`
(`development | production | test`). -/
inductive Profile
  | development
  | production
  | test
deriving DecidableEq, Repr

/-- Deployment configuration and external-world parameters of the Express
implementation: the environment profile, whether the Redis client is
connected (`RedisService.isConnected`), whether a Redis operation issued now
fails (connection lost mid-operation, handled by
`RedisService.handleOperationError`), the configured token lifetimes
(seconds), and the bcryptjs primitives, kept abstract: `pwMatches pw hash`
models `bcryptjs.compare`, `mkHash pw` models `bcryptjs.hash`. -/
structure Cfg where
  profile : Profile
  redisConnected : Bool
  redisOpFails : Bool
  accessTtl : Nat
  refreshTtl : Nat
  pwMatches : String → String → Bool
  mkHash : String → String

/-- `env.isDevelopment` (`src/config/environment.ts`). -/
def Cfg.isDevelopment (cfg : Cfg) : Prop := cfg.profile = Profile.development

instance (cfg : Cfg) : Decidable cfg.isDevelopment := by
  unfold Cfg.isDevelopment; infer_instance

/-- A row of the Prisma `user` table as used by the auth module:
`password` is the stored bcrypt hash, `refreshToken` the nullable persisted
refresh-token column written by `UserService.updateRefreshToken`. -/
structure User where
  id : String
  name : String
  email : String
  password : String
  role : String
  refreshToken : Option Tok
deriving DecidableEq, Repr

/-- A Redis blacklist entry: the token (standing for the key
`token:blacklist:<token>`), the TTL passed to `SET`, and the instant the
entry was written.  Redis discards the entry once `setAt + ttl` is reached. -/
structure BEntry where
  tok : Tok
  ttl : Nat
  setAt : Nat
deriving DecidableEq, Repr

/-- The mutable server-side state of the Express implementation: the user
table, the Redis blacklist, the freshness counter feeding `jti` generation
(`JwtUtils.generateTokenId`) and Prisma id generation, and the current time
in seconds. -/
structure St where
  users : List User
  blacklist : List BEntry
  fresh : Nat
  now : Nat
deriving DecidableEq, Repr

/-- `TokenService.BLACKLIST_TTL`: fixed 7 days, in seconds. -/
def BLACKLIST_TTL : Nat := 60 * 60 * 24 * 7

/-- `redisService.exists` on a live connection: an entry answers `true`
until its TTL has elapsed. -/
def blacklistAlive (s : St) (t : Tok) : Bool :=
  s.blacklist.any fun e => decide (e.tok = t) && decide (s.now < e.setAt + e.ttl)

/-- `TokenService.isTokenBlacklisted` (`token.service.ts:94-135`) together
with the Redis availability handling of `src/config/redis.ts`:

* connection up, operation succeeds → the Redis lookup answer;
* connection up, operation fails → `handleOperationError` returns `false`
  in development and rethrows otherwise; the service's own `catch` then
  returns `false` in development and rethrows otherwise;
* connection down → the service returns `false` in development and throws
  `"Serviço Redis não está disponível"` otherwise. -/
def isTokenBlacklisted (cfg : Cfg) (s : St) (t : Tok) : Except Err Bool :=
  if cfg.redisConnected then
    if cfg.redisOpFails then
      if cfg.isDevelopment then .ok false
      else .error ⟨.dependency, "Erro na operação exists do Redis"⟩
    else .ok (blacklistAlive s t)
  else if cfg.isDevelopment then .ok false
  else .error ⟨.dependency, "Serviço Redis não está disponível"⟩

/-- `TokenService.blacklistToken` (`token.service.ts:57-89`): on a live
connection it issues `SET token:blacklist:<token> "true" EX BLACKLIST_TTL`;
with Redis down or failing it is a no-op in development and an error
otherwise.  Returns the outcome and the state (the blacklist write is the
only effect). -/
def blacklistToken (cfg : Cfg) (s : St) (t : Tok) : Except Err Unit × St :=
  if cfg.redisConnected then
    if cfg.redisOpFails then
      if cfg.isDevelopment then (.ok (), s)
      else (.error ⟨.dependency, "Erro na operação set do Redis"⟩, s)
    else (.ok (), { s with blacklist := ⟨t, BLACKLIST_TTL, s.now⟩ :: s.blacklist })
  else if cfg.isDevelopment then (.ok (), s)
  else (.error ⟨.dependency, "Serviço Redis não está disponível"⟩, s)

/-- Result of `JwtUtils.verifyToken` (`jwt.utils.ts:116-158`). -/
structure VerifyResult where
  valid : Bool
  expired : Bool
  payload : Option Claims
deriving DecidableEq, Repr

/-- `JwtUtils.verifyToken`: `jose.jwtVerify` validates the signature, then
issuer/audience, then `exp`; `JWTExpired` yields `expired := true`, every
other failure `⟨false, false, none⟩`. -/
def jwtVerify (now : Nat) : Tok → VerifyResult
  | .signed c e => if e ≤ now then ⟨false, true, none⟩ else ⟨true, false, some c⟩
  | .badClaims _ _ => ⟨false, false, none⟩
  | .badSig _ => ⟨false, false, none⟩

/-- Result of `TokenService.verifyToken` (`token.service.ts:140-165`). -/
structure TokenResult where
  valid : Bool
  expired : Bool
  userId : Option String
  payload : Option Claims
deriving DecidableEq, Repr

/-- `TokenService.verifyToken`: first the blacklist check — a blacklisted
token, and likewise an error thrown by the blacklist check (the enclosing
`catch`), yield `{valid := false, expired := false}`; otherwise the result of
`JwtUtils.verifyToken`, with `userId` projected from the payload's `sub`. -/
def verifyToken (cfg : Cfg) (s : St) (t : Tok) : TokenResult :=
  match isTokenBlacklisted cfg s t with
  | .error _ => ⟨false, false, none, none⟩
  | .ok true => ⟨false, false, none, none⟩
  | .ok false =>
    let r := jwtVerify s.now t
    ⟨r.valid, r.expired, r.payload.map (·.sub), r.payload⟩

/-- `TokenService.generateAccessToken` via `JwtUtils.generateAccessToken`:
a fresh `jti`, type `"access"`, expiry `now + env.jwt.expiresIn`. -/
def genAccess (cfg : Cfg) (s : St) (u : User) : Tok × St :=
  (.signed ⟨u.id, some u.email, some u.role, s.fresh, "access"⟩ (s.now + cfg.accessTtl),
   { s with fresh := s.fresh + 1 })

/-- `TokenService.generateRefreshToken` via `JwtUtils.generateRefreshToken`:
a fresh `jti`, type `"refresh"`, subject `userId`, expiry
`now + env.jwt.refreshExpiresIn`. -/
def genRefresh (cfg : Cfg) (s : St) (uid : String) : Tok × St :=
  (.signed ⟨uid, none, none, s.fresh, "refresh"⟩ (s.now + cfg.refreshTtl),
   { s with fresh := s.fresh + 1 })

/-- `UserService.findByEmail`. -/
def findByEmail (s : St) (email : String) : Option User :=
  s.users.find? fun u => decide (u.email = email)

/-- `UserService.findById`. -/
def findById (s : St) (uid : String) : Option User :=
  s.users.find? fun u => decide (u.id = uid)

/-- `UserService.updateRefreshToken` (`user.service.ts:87-101`): writes the
given nullable value verbatim into the `refreshToken` column of the user row
— no hashing is applied. -/
def updateRefreshToken (s : St) (uid : String) (rt : Option Tok) : St :=
  { s with users := s.users.map fun u =>
      if u.id = uid then { u with refreshToken := rt } else u }

/-- `UserService.updatePassword`: stores `bcryptjs.hash(newPassword)`. -/
def updatePassword (cfg : Cfg) (s : St) (uid newPassword : String) : St :=
  { s with users := s.users.map fun u =>
      if u.id = uid then { u with password := cfg.mkHash newPassword } else u }

/-- `HashUtils.isStrongPassword` (special characters listed by their ASCII
codes; the set is the character class of the source regex). -/
def specialChars : List Char :=
  [33, 64, 35, 36, 37, 94, 38, 42, 40, 41, 95, 43, 45, 61, 91, 93, 123, 125,
   59, 39, 58, 34, 92, 124, 44, 46, 60, 62, 47, 63].map Char.ofNat

/-- `HashUtils.isStrongPassword`: length ≥ 8, at least one upper-case letter,
one lower-case letter, one digit and one special character. -/
def isStrongPassword (pw : String) : Bool :=
  let cs := pw.data
  decide (8 ≤ cs.length) &&
  cs.any (fun c => decide (('A' ≤ c) ∧ (c ≤ 'Z'))) &&
  cs.any (fun c => decide (('a' ≤ c) ∧ (c ≤ 'z'))) &&
  cs.any (fun c => decide (('0' ≤ c) ∧ (c ≤ '9'))) &&
  cs.any (fun c => specialChars.contains c)

/-- Response of `AuthService.login` / `AuthService.refreshToken`
(the token pair; the user summary of the login response carries no token
material and is omitted). -/
structure TokenPair where
  accessToken : Tok
  refreshToken : Tok
deriving DecidableEq, Repr

/-- `AuthService.login` (`auth.service.ts:39-118`): find the user by email
(absent → `UnauthorizedError "Credenciais inválidas"`), check the password
(wrong → the same error), then generate an access and a refresh token and
persist the **raw** refresh token on the user row. -/
def login (cfg : Cfg) (s : St) (email pw : String) : Except Err TokenPair × St :=
  match findByEmail s email with
  | none => (.error ⟨.unauthorized, "Credenciais inválidas"⟩, s)
  | some u =>
    if cfg.pwMatches pw u.password then
      let (acc, s1) := genAccess cfg s u
      let (ref, s2) := genRefresh cfg s1 u.id
      let s3 := updateRefreshToken s2 u.id (some ref)
      (.ok ⟨acc, ref⟩, s3)
    else (.error ⟨.unauthorized, "Credenciais inválidas"⟩, s)

/-- `AuthService.register`: unique-email check, password-strength check,
then `createUser` (id drawn from the freshness counter, role `USER`,
`refreshToken` column null). -/
def register (cfg : Cfg) (s : St) (name email pw : String) : Except Err User × St :=
  match findByEmail s email with
  | some _ => (.error ⟨.conflict, "Email já está em uso"⟩, s)
  | none =>
    if isStrongPassword pw then
      let u : User := ⟨"user-" ++ toString s.fresh, name, email, cfg.mkHash pw, "USER", none⟩
      (.ok u, { s with users := u :: s.users, fresh := s.fresh + 1 })
    else (.error ⟨.validation, "Senha não atende aos requisitos de segurança"⟩, s)

/-- The read phase of `AuthService.refreshToken` (`auth.service.ts:174-230`):
verify the presented token (invalid, expired, blacklisted or lacking a
subject → `UnauthorizedError "Token inválido ou expirado"`), load the user
(absent → `NotFoundError "Usuário"`), and compare the stored raw
`refreshToken` column against the presented raw value (mismatch →
`UnauthorizedError "Token inválido"`).  Reads only. -/
def refreshStep1 (cfg : Cfg) (s : St) (t : Tok) : Except Err User :=
  let tr := verifyToken cfg s t
  match tr.valid, tr.userId with
  | true, some uid =>
    match findById s uid with
    | none => .error ⟨.notFound, "Usuário"⟩
    | some u =>
      if u.refreshToken = some t then .ok u
      else .error ⟨.unauthorized, "Token inválido"⟩
  | _, _ => .error ⟨.unauthorized, "Token inválido ou expirado"⟩

/-- The write phase of `AuthService.refreshToken` (`auth.service.ts:231-261`):
generate a new access and refresh token for the user read in the first
phase, overwrite the `refreshToken` column (a plain write — there is no
compare-and-swap), then blacklist the old raw token (whose failure turns
the overall outcome into an error, the rotation having already been
persisted). -/
def refreshStep2 (cfg : Cfg) (s : St) (t : Tok) (u : User) : Except Err TokenPair × St :=
  let (acc, s1) := genAccess cfg s u
  let (ref, s2) := genRefresh cfg s1 u.id
  let s3 := updateRefreshToken s2 u.id (some ref)
  ((blacklistToken cfg s3 t).1.map fun _ => (⟨acc, ref⟩ : TokenPair),
   (blacklistToken cfg s3 t).2)

/-- `AuthService.refreshToken`, the full (sequentially executed) operation:
read phase then write phase. -/
def refresh (cfg : Cfg) (s : St) (t : Tok) : Except Err TokenPair × St :=
  match refreshStep1 cfg s t with
  | .error e => (.error e, s)
  | .ok u => refreshStep2 cfg s t u

/-- `AuthService.logout` (`auth.service.ts:276-301`): blacklist the refresh
token (its failure aborts the operation before the user row is touched),
then null the `refreshToken` column. -/
def logout (cfg : Cfg) (s : St) (uid : String) (t : Tok) : Except Err Unit × St :=
  match (blacklistToken cfg s t).1 with
  | .error e => (.error e, (blacklistToken cfg s t).2)
  | .ok _ => (.ok (), updateRefreshToken (blacklistToken cfg s t).2 uid none)

/-- `AuthService.changePassword` (`auth.service.ts:306-386`): load the user,
verify the current password, check the strength of the new password, reject
a new password equal to the current one, store the new hash, then blacklist
the stored refresh token (when present) and null the column. -/
def changePassword (cfg : Cfg) (s : St) (uid currentPw newPw : String) :
    Except Err Unit × St :=
  match findById s uid with
  | none => (.error ⟨.notFound, "Usuário"⟩, s)
  | some u =>
    if cfg.pwMatches currentPw u.password then
      if isStrongPassword newPw then
        if currentPw = newPw then
          (.error ⟨.validation, "Nova senha deve ser diferente da atual"⟩, s)
        else
          match u.refreshToken with
          | some rt =>
            match (blacklistToken cfg (updatePassword cfg s uid newPw) rt).1 with
            | .error e =>
              (.error e, (blacklistToken cfg (updatePassword cfg s uid newPw) rt).2)
            | .ok _ =>
              (.ok (), updateRefreshToken
                (blacklistToken cfg (updatePassword cfg s uid newPw) rt).2 uid none)
          | none => (.ok (), updatePassword cfg s uid newPw)
      else (.error ⟨.validation, "Senha não atende aos requisitos de segurança"⟩, s)
    else (.error ⟨.unauthorized, "Senha atual incorreta"⟩, s)

/-- The authenticated request context set by the middleware. -/
structure ReqUser where
  id : String
  email : String
  role : String
deriving DecidableEq, Repr

/-- `AuthMiddleware.authenticate` (`src/unnamed/part_013:39-140`), from the
point where the bearer token has been extracted from the `Authorization`
header (`none` models a missing or malformed header): verify the token
(blacklist included), demand a payload with a subject, demand the `type`
claim to be `"access"`, then load the user.  Every failure is an
`UnauthorizedError`. -/
def authenticate (cfg : Cfg) (s : St) (tok : Option Tok) : Except Err ReqUser :=
  match tok with
  | none => .error ⟨.unauthorized, "Token de autenticação não fornecido"⟩
  | some t =>
    let tr := verifyToken cfg s t
    if tr.valid then
      match tr.payload, tr.userId with
      | some p, some uid =>
        if p.typ = "access" then
          match findById s uid with
          | some u => .ok ⟨u.id, u.email, u.role⟩
          | none => .error ⟨.unauthorized, "Usuário não encontrado"⟩
        else .error ⟨.unauthorized, "Tipo de token inválido para esta operação"⟩
      | _, _ => .error ⟨.unauthorized, "Token de autenticação inválido"⟩
    else if tr.expired then .error ⟨.unauthorized, "Token de autenticação expirado"⟩
    else .error ⟨.unauthorized, "Token de autenticação inválido"⟩

/-- The public mutating operations of the Express implementation, plus the
passage of time (Redis TTL expiry). -/
inductive Op
  | login (email pw : String)
  | register (name email pw : String)
  | refresh (t : Tok)
  | logout (uid : String) (t : Tok)
  | changePassword (uid currentPw newPw : String)
  | tick (dt : Nat)

/-- State reached after running one operation (the operation's outcome is
dropped; failing operations keep whatever partial effects the code
performed before the failure). -/
def applyOp (cfg : Cfg) (s : St) : Op → St
  | .login email pw => (login cfg s email pw).2
  | .register name email pw => (register cfg s name email pw).2
  | .refresh t => (refresh cfg s t).2
  | .logout uid t => (logout cfg s uid t).2
  | .changePassword uid c n => (changePassword cfg s uid c n).2
  | .tick dt => { s with now := s.now + dt }

/-- One server step: some request, under some deployment condition (the
Redis connection may come and go between requests), transforms the state. -/
def Step (s s' : St) : Prop := ∃ cfg op, s' = applyOp cfg s op

/-- Reachability by any number of public operations. -/
def Reachable (s s' : St) : Prop := Relation.ReflTransGen Step s s'

/-- A persisted refresh-token value was minted below the freshness counter
`n` (token ids are UUIDs in the source; the counter models their
freshness). -/
def tokOptFresh (n : Nat) : Option Tok → Prop
  | none => True
  | some (.signed c _) => c.jti < n
  | some (.badClaims c _) => c.jti < n
  | some (.badSig _) => True

instance instDecidableTokOptFresh (n : Nat) (o : Option Tok) :
    Decidable (tokOptFresh n o) :=
  match o with
  | none => inferInstanceAs (Decidable True)
  | some (.signed c _) => inferInstanceAs (Decidable (c.jti < n))
  | some (.badClaims c _) => inferInstanceAs (Decidable (c.jti < n))
  | some (.badSig _) => inferInstanceAs (Decidable True)

/-- Well-formedness of an Express state: every persisted refresh token was
minted below the freshness counter, and no two distinct user rows hold the
same (non-null) persisted refresh token. -/
def WF (s : St) : Prop :=
  (∀ u ∈ s.users, tokOptFresh s.fresh u.refreshToken) ∧
  (∀ u ∈ s.users, ∀ v ∈ s.users,
     u.refreshToken ≠ none → u.refreshToken = v.refreshToken → u = v)

instance instDecidableWF (s : St) : Decidable (WF s) := by
  unfold WF; infer_instance

/-- The rotated-away-token invariant for a refresh token `signed c e`: no
user row holds it, its `jti` lies below the freshness counter (so no later
minting can recreate it), and a user row with its subject's id exists. -/
def Dead (c : Claims) (e : Nat) (s : St) : Prop :=
  (∀ u ∈ s.users, u.refreshToken ≠ some (Tok.signed c e)) ∧
  c.jti < s.fresh ∧
  (∃ u ∈ s.users, u.id = c.sub)

/-- How one public operation may relate two states: the freshness counter
never decreases; every user row of the new state carries a refresh-token
value some old row already carried, or `none`, or a token minted at or
above the old counter; and no user row's id disappears. -/
def Evolves (s s' : St) : Prop :=
  s.fresh ≤ s'.fresh ∧
  (∀ u' ∈ s'.users,
     (∃ v ∈ s.users, u'.refreshToken = v.refreshToken) ∨
     u'.refreshToken = none ∨
     (∃ c' e', u'.refreshToken = some (Tok.signed c' e') ∧ s.fresh ≤ c'.jti)) ∧
  (∀ v ∈ s.users, ∃ u' ∈ s'.users, u'.id = v.id)

end Express



namespace Nest

/-- Configuration and cryptographic primitives of the NestJS implementation,
kept abstract: `pwVerify hash pw` models `argon2.verify`, `sha256` the
`crypto.createHash('sha256')` digest, `rawGen` the
`crypto.randomBytes(40).toString('hex')` generator (indexed by a freshness
counter), `refreshExpirationStr` the `JWT_REFRESH_EXPIRATION` environment
variable (absent → the code falls back to `"7d"`). -/
structure Cfg where
  pwVerify : String → String → Bool
  sha256 : String → String
  rawGen : Nat → String
  refreshExpirationStr : Option String

/-- A row of the Prisma `user` table (NestJS flavour): argon2 password hash,
`status` (`ACTIVE | ...`), nullable `lastLogin` instant. -/
structure User where
  id : String
  email : String
  firstName : String
  lastName : String
  passwordHash : String
  status : String
  lastLogin : Option Nat
deriving DecidableEq, Repr

/-- A `tenant` row: status is checked against the literal `'ACTIVE'`. -/
structure Tenant where
  id : String
  name : String
  subdomain : String
  status : String
deriving DecidableEq, Repr

/-- A `userTenant` row together with its included `tenant` and role name
(Prisma `include`). -/
structure Membership where
  userId : String
  tenantId : String
  roleId : String
  roleName : String
  tenant : Tenant
deriving DecidableEq, Repr

/-- A `userSession` row (`AuthService.createSession`): the sha256 hash of
the refresh token, never the raw value, with its expiry instant. -/
structure Session where
  userId : String
  tokenHash : String
  expiresAt : Nat
deriving DecidableEq, Repr

/-- Server-side state of the NestJS implementation.  `now` is the current
time in milliseconds. -/
structure St where
  users : List User
  memberships : List Membership
  sessions : List Session
  fresh : Nat
  now : Nat
deriving DecidableEq, Repr

/-- A signed access token, represented by its claims and signing options:
`sub` is the user id; `tenantId`/`role` are present only on tenant-scoped
tokens; `audience` is the tenant subdomain when the token was signed with
`createTenantJwtConfig` (which sets `audience: tenant`), `none` for the
plain login/refresh access token. -/
structure AccessToken where
  sub : String
  tenantId : Option String
  role : Option String
  audience : Option String
deriving DecidableEq, Repr

/-- `AuthService.parseDuration` (`auth.service.ts:217-238`): strings
matching `^(\d+)([smhdwy])$` are decimal-parsed and multiplied by the unit's
millisecond multiplier; every other string yields the 7-day default.  The
decimal value of the digit list models `parseInt(match[1], 10)`. -/
def digitsVal (ds : List Char) : Nat :=
  ds.foldl (fun a c => a * 10 + (c.toNat - 48)) 0

/-- The multiplier table of `parseDuration`, in milliseconds. -/
def durationMultiplier (u : Char) : Nat :=
  if u = 's' then 1000
  else if u = 'm' then 60 * 1000
  else if u = 'h' then 60 * 60 * 1000
  else if u = 'd' then 24 * 60 * 60 * 1000
  else if u = 'w' then 7 * 24 * 60 * 60 * 1000
  else 365 * 24 * 60 * 60 * 1000

/-- The unit characters accepted by the regex `^(\d+)([smhdwy])$`. -/
def unitChars : List Char := ['s', 'm', 'h', 'd', 'w', 'y']

/-- Whether a string matches `^(\d+)([smhdwy])$`. -/
def durationWellFormed (duration : String) : Bool :=
  match duration.data.getLast? with
  | some u =>
    !(duration.data.dropLast.isEmpty) &&
      duration.data.dropLast.all (fun c => c.isDigit) &&
      unitChars.contains u
  | none => false

/-- `AuthService.parseDuration` itself (result in milliseconds). -/
def parseDuration (duration : String) : Nat :=
  match duration.data.getLast? with
  | some u =>
    if !(duration.data.dropLast.isEmpty) &&
        duration.data.dropLast.all (fun c => c.isDigit) &&
        unitChars.contains u then
      digitsVal duration.data.dropLast * durationMultiplier u
    else 7 * 24 * 60 * 60 * 1000
  | none => 7 * 24 * 60 * 60 * 1000

/-- `UsersService.findByEmail` returns the row or raises
`NotFoundException`; modelled as the optional row. -/
def findUserByEmail (s : St) (email : String) : Option User :=
  s.users.find? fun u => decide (u.email = email)

/-- `AuthService.validateUser` (`auth.service.ts:32-63`): the
`NotFoundException` of `findByEmail` is caught and mapped to
`UnauthorizedException "Credenciais inválidas"`; a non-ACTIVE account is
rejected with the distinct message `"Conta de usuário inativa ou
bloqueada"`; a wrong password (`argon2.verify` false) with
`"Credenciais inválidas"`. -/
def validateUser (cfg : Cfg) (s : St) (email pw : String) : Except Err User :=
  match findUserByEmail s email with
  | none => .error ⟨.unauthorized, "Credenciais inválidas"⟩
  | some u =>
    if u.status = "ACTIVE" then
      if cfg.pwVerify u.passwordHash pw then .ok u
      else .error ⟨.unauthorized, "Credenciais inválidas"⟩
    else .error ⟨.unauthorized, "Conta de usuário inativa ou bloqueada"⟩

/-- `AuthService.createSession` (`auth.service.ts:189-214`): store the
sha256 hash of the raw refresh token with expiry
`now + parseDuration(JWT_REFRESH_EXPIRATION ?? "7d")`. -/
def createSession (cfg : Cfg) (s : St) (uid raw : String) : St :=
  let tokenHash := cfg.sha256 raw
  let ms := parseDuration (cfg.refreshExpirationStr.getD "7d")
  { s with sessions := ⟨uid, tokenHash, s.now + ms⟩ :: s.sessions }

/-- Response of `AuthService.login` (token material only; the user and
tenant summaries carry no token material and are omitted). -/
structure LoginResp where
  accessToken : AccessToken
  refreshToken : String
deriving DecidableEq, Repr

/-- `AuthService.login` (`auth.service.ts:66-116`): validate credentials,
require at least one tenant membership, generate the access token
(`sign {sub}`) and the random refresh value, update `lastLogin`, and create
the session (which stores only the hash of the refresh value). -/
def login (cfg : Cfg) (s : St) (email pw : String) : Except Err LoginResp × St :=
  match validateUser cfg s email pw with
  | .error e => (.error e, s)
  | .ok u =>
    if (s.memberships.filter fun m => decide (m.userId = u.id)).isEmpty then
      (.error ⟨.forbidden, "Usuário não possui acesso a nenhum tenant"⟩, s)
    else
      let raw := cfg.rawGen s.fresh
      let acc : AccessToken := ⟨u.id, none, none, none⟩
      let s1 : St := { s with
        fresh := s.fresh + 1,
        users := s.users.map fun v =>
          if v.id = u.id then { v with lastLogin := some s.now } else v }
      let s2 := createSession cfg s1 u.id raw
      (.ok ⟨acc, raw⟩, s2)

/-- `AuthService.refreshTokens` (`auth.service.ts:241-270`): hash the
presented raw value, look for a non-expired session with that hash, and on
success sign a **new access token only** — the session row is left exactly
as it was, no rotation and no invalidation of the presented value takes
place. -/
def refreshTokens (cfg : Cfg) (s : St) (raw : String) :
    Except Err AccessToken × St :=
  let tokenHash := cfg.sha256 raw
  match s.sessions.find? (fun ss =>
      decide (ss.tokenHash = tokenHash) && decide (s.now < ss.expiresAt)) with
  | none => (.error ⟨.unauthorized, "Sessão inválida ou expirada"⟩, s)
  | some ss => (.ok ⟨ss.userId, none, none, none⟩, s)

/-- `AuthService.logout` (`auth.service.ts:273-287`): delete every session
whose hash matches the presented raw value. -/
def logout (cfg : Cfg) (s : St) (raw : String) : St :=
  let tokenHash := cfg.sha256 raw
  { s with sessions := s.sessions.filter fun ss => decide (ss.tokenHash ≠ tokenHash) }

/-- The tenant summary returned by `selectTenant`. -/
structure TenantSummary where
  id : String
  name : String
  subdomain : String
deriving DecidableEq, Repr

/-- Response of `AuthService.selectTenant` — note the shape: an access token,
a tenant summary and a redirect URL; there is no refresh-token field. -/
structure SelectTenantResp where
  accessToken : AccessToken
  tenant : TenantSummary
  redirectUrl : String
deriving DecidableEq, Repr

/-- `AuthService.selectTenant` (`auth.service.ts:119-171`): look up the
`userTenant` row by the composite key (no membership →
`ForbiddenException "Usuário não possui acesso ao tenant selecionado"`),
check the tenant's status (not `'ACTIVE'` →
`ForbiddenException "O tenant selecionado está inativo"`), then sign
`{sub, tenantId, role: roleId}` under the tenant-scoped config
(`audience = subdomain`).  The function performs no writes: the state is
returned untouched, and in particular no refresh token and no session row
is created. -/
def selectTenant (_cfg : Cfg) (s : St) (userId tenantId : String) :
    Except Err SelectTenantResp × St :=
  match s.memberships.find? (fun m =>
      decide (m.userId = userId) && decide (m.tenantId = tenantId)) with
  | none => (.error ⟨.forbidden, "Usuário não possui acesso ao tenant selecionado"⟩, s)
  | some m =>
    if m.tenant.status = "ACTIVE" then
      let tok : AccessToken := ⟨userId, some tenantId, some m.roleId, some m.tenant.subdomain⟩
      (.ok ⟨tok, ⟨m.tenant.id, m.tenant.name, m.tenant.subdomain⟩,
        "https://" ++ m.tenant.subdomain ++ ".integresocial.cloud"⟩, s)
    else (.error ⟨.forbidden, "O tenant selecionado está inativo"⟩, s)

end Nest

namespace Samples

/-- Concrete Express configuration: production profile, Redis connected and
healthy; bcrypt modelled by tagging (`mkHash pw = "bc-" ++ pw`). -/
def eCfgUp : Express.Cfg :=
  ⟨.production, true, false, 3600, 604800,
   fun pw h => decide (h = "bc-" ++ pw), fun pw => "bc-" ++ pw⟩

/-- Concrete Express configuration: production profile, Redis connection
down. -/
def eCfgDown : Express.Cfg :=
  ⟨.production, false, false, 3600, 604800,
   fun pw h => decide (h = "bc-" ++ pw), fun pw => "bc-" ++ pw⟩

/-- Claims of the sample persisted refresh token (jti 0). -/
def eClaims0 : Express.Claims := ⟨"u1", none, none, 0, "refresh"⟩

/-- The sample persisted refresh token: well signed, expiring at 9999. -/
def eTok0 : Express.Tok := .signed eClaims0 9999

/-- Sample user row holding `eTok0` as its persisted refresh token. -/
def eUser0 : Express.User :=
  ⟨"u1", "Alice", "a@x.com", "bc-Correct1!", "USER", some eTok0⟩

/-- Sample Express state: one user, empty blacklist, counter 1, time 1000. -/
def eSt0 : Express.St := ⟨[eUser0], [], 1, 1000⟩

/-- Access token minted by the first rotation from `eSt0` (jti 1). -/
def eAcc1 : Express.Tok :=
  .signed ⟨"u1", some "a@x.com", some "USER", 1, "access"⟩ 4600

/-- Refresh token minted by the first rotation from `eSt0` (jti 2). -/
def eRef1 : Express.Tok := .signed ⟨"u1", none, none, 2, "refresh"⟩ 605800

/-- Access token minted by a second rotation racing the first (jti 3). -/
def eAcc2 : Express.Tok :=
  .signed ⟨"u1", some "a@x.com", some "USER", 3, "access"⟩ 4600

/-- Refresh token minted by a second rotation racing the first (jti 4). -/
def eRef2 : Express.Tok := .signed ⟨"u1", none, none, 4, "refresh"⟩ 605800

/-- State after the successful refresh of `eTok0` from `eSt0`. -/
def eSt1 : Express.St := (Express.refresh eCfgUp eSt0 eTok0).2

/-- A well-signed, **expired** (950 ≤ 1000) sample token. -/
def eTokExp : Express.Tok := .signed ⟨"u1", none, none, 0, "refresh"⟩ 950

/-- Express state whose blacklist holds `eTokExp` (entry still alive). -/
def eStBl : Express.St := ⟨[eUser0], [⟨eTokExp, Express.BLACKLIST_TTL, 900⟩], 1, 1000⟩

/-- Concrete NestJS configuration: argon2 and sha256 modelled by tagging,
random refresh values drawn from the freshness counter, no
`JWT_REFRESH_EXPIRATION` configured (the code falls back to `"7d"`). -/
def nCfg : Nest.Cfg :=
  ⟨fun h pw => decide (h = "ar-" ++ pw), fun raw => "sha-" ++ raw,
   fun n => "raw" ++ toString n, none⟩

/-- Sample active tenant. -/
def nTenantA : Nest.Tenant := ⟨"t1", "Tenant One", "one", "ACTIVE"⟩

/-- Sample inactive tenant. -/
def nTenantI : Nest.Tenant := ⟨"t2", "Tenant Two", "two", "INACTIVE"⟩

/-- Sample active user (password `pw1`). -/
def nUserA : Nest.User := ⟨"u1", "a@x.com", "Ana", "Alves", "ar-pw1", "ACTIVE", none⟩

/-- Sample inactive user (password `pw2`). -/
def nUserI : Nest.User := ⟨"u2", "b@x.com", "Bia", "Braga", "ar-pw2", "INACTIVE", none⟩

/-- Membership of `u1` in the active tenant. -/
def nMemA : Nest.Membership := ⟨"u1", "t1", "r1", "ADMIN", nTenantA⟩

/-- Membership of `u1` in the inactive tenant. -/
def nMemI : Nest.Membership := ⟨"u1", "t2", "r2", "USER", nTenantI⟩

/-- A live session of `u1` whose hash column holds `sha256 "rawA"`. -/
def nSess : Nest.Session := ⟨"u1", "sha-rawA", 999999⟩

/-- Sample NestJS state. -/
def nSt : Nest.St := ⟨[nUserA, nUserI], [nMemA, nMemI], [nSess], 0, 1000⟩

end Samples

namespace Express

/-- `blacklistToken` either leaves the state unchanged (Redis down or the
operation failing, in development) or conses exactly one entry carrying the
constant `BLACKLIST_TTL`. -/
theorem blacklistToken_state (cfg : Cfg) (s : St) (t : Tok) :
    (blacklistToken cfg s t).2 = s ∨
    (blacklistToken cfg s t).2 =
      { s with blacklist := ⟨t, BLACKLIST_TTL, s.now⟩ :: s.blacklist } := by
  unfold blacklistToken
  split_ifs <;> simp

end Express

/-- **C4** — with the revocation cache unreachable (connection down, or the
lookup operation failing), `TokenService.isTokenBlacklisted` fails closed in
the production profile (it propagates an error, so the caller rejects), and
any fail-open outcome (an `ok` result, necessarily `false`) can only occur
outside the production profile. -/
theorem c4_revocation_fail_closed_production (cfg : Express.Cfg)
    (s : Express.St) (t : Express.Tok)
    (h : cfg.redisConnected = false ∨ cfg.redisOpFails = true) :
    (cfg.profile = Express.Profile.production →
       ∃ er, Express.isTokenBlacklisted cfg s t = Except.error er) ∧
    (∀ b, Express.isTokenBlacklisted cfg s t = Except.ok b →
       b = false ∧ cfg.profile ≠ Express.Profile.production) := by
  constructor
  · intro hprod
    have hnd : ¬ cfg.isDevelopment := by
      simp [Express.Cfg.isDevelopment, hprod]
    rcases h with h | h
    · exact ⟨⟨.dependency, "Serviço Redis não está disponível"⟩, by
        simp [Express.isTokenBlacklisted, h, hnd]⟩
    · by_cases hc : cfg.redisConnected
      · exact ⟨⟨.dependency, "Erro na operação exists do Redis"⟩, by
          simp [Express.isTokenBlacklisted, h, hc, hnd]⟩
      · exact ⟨⟨.dependency, "Serviço Redis não está disponível"⟩, by
          simp [Express.isTokenBlacklisted, h, hc, hnd]⟩
  · intro b hb
    by_cases hd : cfg.isDevelopment
    · have hnp : cfg.profile ≠ Express.Profile.production := by
        simp only [Express.Cfg.isDevelopment] at hd
        simp [hd]
      refine ⟨?_, hnp⟩
      rcases h with h | h
      · simpa [Express.isTokenBlacklisted, h, hd] using hb
      · by_cases hc : cfg.redisConnected <;>
          simpa [Express.isTokenBlacklisted, h, hc, hd] using hb
    · rcases h with h | h
      · simp [Express.isTokenBlacklisted, h, hd] at hb
      · by_cases hc : cfg.redisConnected <;>
          simp [Express.isTokenBlacklisted, h, hc, hd] at hb

/-- Witness for C4 at a concrete input: production profile, Redis
disconnected — the blacklist check errors out. -/
theorem c4_witness :
    ∃ er, Express.isTokenBlacklisted Samples.eCfgDown Samples.eSt0 Samples.eTok0 =
      Except.error er :=
  (c4_revocation_fail_closed_production Samples.eCfgDown Samples.eSt0
    Samples.eTok0 (Or.inl rfl)).1 rfl

/-- **C5, amended** — every entry the revocation operation writes carries
the constant TTL `BLACKLIST_TTL` (7 days), irrespective of the revoked
token's remaining validity window. -/
theorem c5_blacklist_ttl_constant (cfg : Express.Cfg) (s : Express.St)
    (t : Express.Tok) :
    ∀ en ∈ (Express.blacklistToken cfg s t).2.blacklist,
      en ∈ s.blacklist ∨ en.ttl = Express.BLACKLIST_TTL := by
  intro en hen
  rcases Express.blacklistToken_state cfg s t with h | h <;> rw [h] at hen
  · exact Or.inl hen
  · rcases List.mem_cons.mp hen with h1 | h1
    · right; rw [h1]
    · left; exact h1

/-- Witness for C5 (amended) at a concrete input. -/
theorem c5_witness :
    (⟨Samples.eTok0, Express.BLACKLIST_TTL, 1000⟩ : Express.BEntry) ∈
        Samples.eSt0.blacklist ∨
    (⟨Samples.eTok0, Express.BLACKLIST_TTL, 1000⟩ : Express.BEntry).ttl =
        Express.BLACKLIST_TTL :=
  c5_blacklist_ttl_constant Samples.eCfgUp Samples.eSt0 Samples.eTok0
    ⟨Samples.eTok0, Express.BLACKLIST_TTL, 1000⟩ (by decide)

/-- **C5, counterexample** — revoking at time 1000 a well-signed token whose
expiry is 1060 (remaining validity 60 s) stores an entry with TTL 604800,
which differs from the remaining validity window. -/
theorem c5_counterexample_fixed_ttl :
    (Express.blacklistToken Samples.eCfgUp Samples.eSt0
        (Express.Tok.signed Samples.eClaims0 1060)).2.blacklist =
      [⟨Express.Tok.signed Samples.eClaims0 1060, 604800, 1000⟩] ∧
    1060 - Samples.eSt0.now = 60 ∧ (604800 : Nat) ≠ 60 :=
  ⟨rfl, by decide, by decide⟩

/-- **C6, amended** — `AuthService.parseDuration` maps every string of the
form `<digits><unit>` with unit in {s, m, h, d, w, y} to the decimal value
of the digits times the unit's millisecond multiplier; every other string
is mapped, in every profile, to the 7-day default (604800000 ms) — no
configuration error is raised. -/
theorem c6_parse_duration_spec :
    (∀ (ds : List Char) (u : Char), ds ≠ [] →
        ds.all (fun c => c.isDigit) = true → u ∈ Nest.unitChars →
        Nest.parseDuration (String.mk (ds ++ [u])) =
          Nest.digitsVal ds * Nest.durationMultiplier u) ∧
    (∀ str : String, Nest.durationWellFormed str = false →
        Nest.parseDuration str = 7 * 24 * 60 * 60 * 1000) := by
  constructor
  · intro ds u hne hdig hmem
    have h1 : ds.isEmpty = false := by
      cases ds with
      | nil => exact absurd rfl hne
      | cons a l => rfl
    have h2 : Nest.unitChars.contains u = true := by
      simpa using hmem
    have hdata : (String.mk (ds ++ [u])).data = ds ++ [u] := rfl
    simp [Nest.parseDuration, hdata, List.getLast?_concat, List.dropLast_concat,
      h1, hdig, h2, hmem]
  · intro str hbad
    unfold Nest.durationWellFormed at hbad
    unfold Nest.parseDuration
    cases h : str.data.getLast? with
    | none => simp [h]
    | some u =>
      rw [h] at hbad
      simp only [h]
      rw [if_neg]
      exact ne_true_of_eq_false hbad

/-- Witness for C6 (amended): `"15m"` parses to 15 minutes, `"banana"` to
the default. -/
theorem c6_witness :
    Nest.parseDuration (String.mk (['1', '5'] ++ ['m'])) =
      Nest.digitsVal ['1', '5'] * Nest.durationMultiplier 'm' ∧
    Nest.parseDuration "banana" = 7 * 24 * 60 * 60 * 1000 :=
  ⟨c6_parse_duration_spec.1 ['1', '5'] 'm' (by decide) (by decide) (by decide),
   c6_parse_duration_spec.2 "banana" (by decide)⟩

/-- **C6, counterexample** — `"banana"` does not match the duration format,
yet `parseDuration` substitutes the 7-day default instead of raising a
configuration error; the function has no profile dependence at all, so the
same default is substituted in the production profile. -/
theorem c6_counterexample_default_substituted :
    Nest.durationWellFormed "banana" = false ∧
    Nest.parseDuration "banana" = 7 * 24 * 60 * 60 * 1000 :=
  ⟨rfl, rfl⟩

/-- **C7** — tenant selection returns the state untouched (no refresh token,
no session write), rejects a missing membership with the first forbidden
message, rejects an inactive tenant with the distinct second forbidden
message, and otherwise issues an access token whose claims carry the tenant
id and the membership's role id. -/
theorem c7_select_tenant_spec (cfg : Nest.Cfg) (s : Nest.St) (uid tid : String) :
    (Nest.selectTenant cfg s uid tid).2 = s ∧
    (s.memberships.find?
        (fun m => decide (m.userId = uid) && decide (m.tenantId = tid)) = none →
      (Nest.selectTenant cfg s uid tid).1 =
        .error ⟨.forbidden, "Usuário não possui acesso ao tenant selecionado"⟩) ∧
    (∀ m, s.memberships.find?
        (fun m => decide (m.userId = uid) && decide (m.tenantId = tid)) = some m →
      (m.tenant.status ≠ "ACTIVE" →
        (Nest.selectTenant cfg s uid tid).1 =
          .error ⟨.forbidden, "O tenant selecionado está inativo"⟩) ∧
      (m.tenant.status = "ACTIVE" →
        (Nest.selectTenant cfg s uid tid).1 =
          .ok ⟨⟨uid, some tid, some m.roleId, some m.tenant.subdomain⟩,
               ⟨m.tenant.id, m.tenant.name, m.tenant.subdomain⟩,
               "https://" ++ m.tenant.subdomain ++ ".integresocial.cloud"⟩)) := by
  refine ⟨?_, ?_, ?_⟩
  · unfold Nest.selectTenant
    cases hf : s.memberships.find?
        (fun m => decide (m.userId = uid) && decide (m.tenantId = tid)) with
    | none => simp
    | some m =>
      dsimp only
      split_ifs <;> rfl
  · intro hf
    simp [Nest.selectTenant, hf]
  · intro m hf
    constructor
    · intro hst
      simp [Nest.selectTenant, hf, hst]
    · intro hst
      simp [Nest.selectTenant, hf, hst]

/-- Witness for C7, exercising all three branches on the sample state:
membership in the active tenant `t1`, membership in the inactive tenant
`t2`, and no membership for `t3`. -/
theorem c7_witness :
    (Nest.selectTenant Samples.nCfg Samples.nSt "u1" "t3").1 =
      .error ⟨.forbidden, "Usuário não possui acesso ao tenant selecionado"⟩ ∧
    (Nest.selectTenant Samples.nCfg Samples.nSt "u1" "t2").1 =
      .error ⟨.forbidden, "O tenant selecionado está inativo"⟩ ∧
    (Nest.selectTenant Samples.nCfg Samples.nSt "u1" "t1").1 =
      .ok ⟨⟨"u1", some "t1", some "r1", some "one"⟩, ⟨"t1", "Tenant One", "one"⟩,
           "https://one.integresocial.cloud"⟩ ∧
    (Nest.selectTenant Samples.nCfg Samples.nSt "u1" "t1").2 = Samples.nSt :=
  ⟨(c7_select_tenant_spec Samples.nCfg Samples.nSt "u1" "t3").2.1 rfl,
   ((c7_select_tenant_spec Samples.nCfg Samples.nSt "u1" "t2").2.2
      Samples.nMemI rfl).1 (by decide),
   ((c7_select_tenant_spec Samples.nCfg Samples.nSt "u1" "t1").2.2
      Samples.nMemA rfl).2 rfl,
   (c7_select_tenant_spec Samples.nCfg Samples.nSt "u1" "t1").1⟩

/-- **C8, amended** — provided the account (when it exists) is ACTIVE, a
wrong-password login failure is observationally identical to a
nonexistent-email failure, in both implementations: the same error class
and the same message `"Credenciais inválidas"`.  (The Express
implementation performs no status check at all, so no status proviso is
needed there.) -/
theorem c8_login_failure_uniform :
    (∀ (cfg : Express.Cfg) (s : Express.St) (e1 pw1 e2 pw2 : String)
        (u : Express.User),
       Express.findByEmail s e1 = some u →
       cfg.pwMatches pw1 u.password = false →
       Express.findByEmail s e2 = none →
       (Express.login cfg s e1 pw1).1 = (Express.login cfg s e2 pw2).1 ∧
       (Express.login cfg s e1 pw1).1 =
         .error ⟨.unauthorized, "Credenciais inválidas"⟩) ∧
    (∀ (cfg : Nest.Cfg) (s : Nest.St) (e1 pw1 e2 pw2 : String) (u : Nest.User),
       Nest.findUserByEmail s e1 = some u →
       u.status = "ACTIVE" →
       cfg.pwVerify u.passwordHash pw1 = false →
       Nest.findUserByEmail s e2 = none →
       (Nest.login cfg s e1 pw1).1 = (Nest.login cfg s e2 pw2).1 ∧
       (Nest.login cfg s e1 pw1).1 =
         .error ⟨.unauthorized, "Credenciais inválidas"⟩) := by
  constructor
  · intro cfg s e1 pw1 e2 pw2 u h1 hpw h2
    constructor
    · simp [Express.login, h1, h2, hpw]
    · simp [Express.login, h1, hpw]
  · intro cfg s e1 pw1 e2 pw2 u h1 hact hpw h2
    constructor
    · simp [Nest.login, Nest.validateUser, h1, h2, hact, hpw]
    · simp [Nest.login, Nest.validateUser, h1, hact, hpw]

/-- Witness for C8 (amended) at concrete inputs in both implementations. -/
theorem c8_witness :
    ((Express.login Samples.eCfgUp Samples.eSt0 "a@x.com" "Wrong1!").1 =
       (Express.login Samples.eCfgUp Samples.eSt0 "ghost@x.com" "Wrong1!").1) ∧
    ((Nest.login Samples.nCfg Samples.nSt "a@x.com" "wrong").1 =
       (Nest.login Samples.nCfg Samples.nSt "ghost@x.com" "wrong").1) :=
  ⟨(c8_login_failure_uniform.1 Samples.eCfgUp Samples.eSt0 "a@x.com" "Wrong1!"
      "ghost@x.com" "Wrong1!" Samples.eUser0 rfl (by decide) rfl).1,
   (c8_login_failure_uniform.2 Samples.nCfg Samples.nSt "a@x.com" "wrong"
      "ghost@x.com" "wrong" Samples.nUserA rfl rfl (by decide) rfl).1⟩

/-- **C8, counterexample** — in the NestJS implementation, a login with a
wrong password against the **inactive** account `b@x.com` fails with the
message `"Conta de usuário inativa ou bloqueada"`, while a login against a
nonexistent email fails with `"Credenciais inválidas"`: the two failures
are distinguishable, contradicting the claim's universal quantification
over all emails. -/
theorem c8_counterexample_inactive_account_distinguishable :
    Samples.nCfg.pwVerify Samples.nUserI.passwordHash "wrong" = false ∧
    (Nest.login Samples.nCfg Samples.nSt "b@x.com" "wrong").1 =
      .error ⟨.unauthorized, "Conta de usuário inativa ou bloqueada"⟩ ∧
    (Nest.login Samples.nCfg Samples.nSt "ghost@x.com" "wrong").1 =
      .error ⟨.unauthorized, "Credenciais inválidas"⟩ ∧
    ("Conta de usuário inativa ou bloqueada" : String) ≠ "Credenciais inválidas" :=
  ⟨rfl, rfl, rfl, by decide⟩

namespace Express

/-- On a well-signed token, `TokenService.verifyToken` yields one of three
results: a generic failure (blacklisted, or the blacklist check errored),
an expiry failure, or success carrying the subject and payload. -/
theorem verifyToken_signed_cases (cfg : Cfg) (s : St) (c : Claims) (e : Nat) :
    verifyToken cfg s (Tok.signed c e) = ⟨false, false, none, none⟩ ∨
    verifyToken cfg s (Tok.signed c e) = ⟨false, true, none, none⟩ ∨
    verifyToken cfg s (Tok.signed c e) = ⟨true, false, some c.sub, some c⟩ := by
  unfold verifyToken
  cases hb : isTokenBlacklisted cfg s (Tok.signed c e) with
  | error er => simp
  | ok b =>
    cases b with
    | false => by_cases he : e ≤ s.now <;> simp [jwtVerify, he]
    | true => simp

end Express

/-- **C9, amended** — `TokenService.verifyToken` is total (it is a plain
function into `TokenResult`; the enclosing `catch` maps every thrown error,
in particular a failing blacklist check, to `{valid := false,
expired := false}`).  It reports `valid = true` exactly when the blacklist
check succeeded with a negative answer and the token is well signed with
correct issuer and audience and not yet expired; it reports
`expired = true` exactly when the blacklist check succeeded with a negative
answer and the token is well signed with correct issuer and audience but
its expiry has passed.  (Blacklisted tokens and blacklist-check failures
therefore yield `expired = false` even for expired tokens.) -/
theorem c9_verify_token_total_spec (cfg : Express.Cfg) (s : Express.St)
    (t : Express.Tok) :
    ((Express.verifyToken cfg s t).valid = true ↔
       (Express.isTokenBlacklisted cfg s t = .ok false ∧
        ∃ c e, t = Express.Tok.signed c e ∧ s.now < e)) ∧
    ((Express.verifyToken cfg s t).expired = true ↔
       (Express.isTokenBlacklisted cfg s t = .ok false ∧
        ∃ c e, t = Express.Tok.signed c e ∧ e ≤ s.now)) := by
  cases hb : Express.isTokenBlacklisted cfg s t with
  | error er => simp [Express.verifyToken, hb]
  | ok b =>
    cases b with
    | true => simp [Express.verifyToken, hb]
    | false =>
      cases t with
      | signed c e =>
        by_cases he : e ≤ s.now
        · simp [Express.verifyToken, Express.jwtVerify, hb, he]
          exact ⟨c, e, ⟨rfl, rfl⟩, he⟩
        · simp [Express.verifyToken, Express.jwtVerify, hb, he]
          exact ⟨⟨c, e, ⟨rfl, rfl⟩, by omega⟩, by omega⟩
      | badClaims c e => simp [Express.verifyToken, Express.jwtVerify, hb]
      | badSig raw => simp [Express.verifyToken, Express.jwtVerify, hb]

/-- **C9, counterexample** — a well-signed token whose expiry (950) has
passed (time 1000) but which sits on the blacklist is reported with
`expired = false` (and `valid = false`), not `expired = true` as the claim
demands for every well-signed token whose expiry has passed. -/
theorem c9_counterexample_blacklisted_expired :
    Samples.eTokExp = Express.Tok.signed ⟨"u1", none, none, 0, "refresh"⟩ 950 ∧
    950 ≤ Samples.eStBl.now ∧
    Express.blacklistAlive Samples.eStBl Samples.eTokExp = true ∧
    Express.verifyToken Samples.eCfgUp Samples.eStBl Samples.eTokExp =
      ⟨false, false, none, none⟩ :=
  ⟨rfl, by decide, rfl, rfl⟩

/-- **C10** — the bearer-authentication middleware rejects, with an
`UnauthorizedError`, every cryptographically valid token whose `type` claim
differs from `"access"`; and every token minted by
`TokenService.generateRefreshToken` carries the `type` claim `"refresh"`,
so no refresh token can authorize an API call through the middleware. -/
theorem c10_middleware_rejects_non_access (cfg : Express.Cfg)
    (s : Express.St) (c : Express.Claims) (e : Nat)
    (htyp : c.typ ≠ "access") :
    (∃ er, Express.authenticate cfg s (some (Express.Tok.signed c e)) =
        .error er ∧ er.kind = .unauthorized) ∧
    (∀ uid c' e', (Express.genRefresh cfg s uid).1 = Express.Tok.signed c' e' →
        c'.typ = "refresh") := by
  constructor
  · rcases Express.verifyToken_signed_cases cfg s c e with hv | hv | hv
    · refine ⟨⟨.unauthorized, "Token de autenticação inválido"⟩, ?_, rfl⟩
      simp [Express.authenticate, hv]
    · refine ⟨⟨.unauthorized, "Token de autenticação expirado"⟩, ?_, rfl⟩
      simp [Express.authenticate, hv]
    · refine ⟨⟨.unauthorized, "Tipo de token inválido para esta operação"⟩, ?_, rfl⟩
      simp [Express.authenticate, hv, htyp]
  · intro uid c' e' hg
    have h : Express.Tok.signed ⟨uid, none, none, s.fresh, "refresh"⟩
        (s.now + cfg.refreshTtl) = Express.Tok.signed c' e' := hg
    injection h with hc he2
    rw [← hc]

/-- Witness for C10: the sample refresh token (type `"refresh"`) is
rejected by the middleware with an unauthorized error. -/
theorem c10_witness :
    ∃ er, Express.authenticate Samples.eCfgUp Samples.eSt0 (some Samples.eTok0) =
        .error er ∧ er.kind = .unauthorized :=
  (c10_middleware_rejects_non_access Samples.eCfgUp Samples.eSt0
    Samples.eClaims0 9999 (by decide)).1

namespace Express

/-- Corollary of `blacklistToken_state`: the blacklist write touches neither
the user table nor the counter nor the clock. -/
theorem blacklistToken_users (cfg : Cfg) (s : St) (t : Tok) :
    (blacklistToken cfg s t).2.users = s.users ∧
    (blacklistToken cfg s t).2.fresh = s.fresh ∧
    (blacklistToken cfg s t).2.now = s.now := by
  rcases blacklistToken_state cfg s t with h | h <;> rw [h] <;> exact ⟨rfl, rfl, rfl⟩

/-- All verification outcomes of `TokenService.verifyToken`: generic
failure, expiry failure, or success on a well-signed unexpired token. -/
theorem verifyToken_cases (cfg : Cfg) (s : St) (t : Tok) :
    verifyToken cfg s t = ⟨false, false, none, none⟩ ∨
    verifyToken cfg s t = ⟨false, true, none, none⟩ ∨
    ∃ c e, t = Tok.signed c e ∧ s.now < e ∧
      verifyToken cfg s t = ⟨true, false, some c.sub, some c⟩ := by
  unfold verifyToken
  cases hb : isTokenBlacklisted cfg s t with
  | error er => simp
  | ok b =>
    cases b with
    | true => simp
    | false =>
      cases t with
      | signed c e =>
        by_cases he : e ≤ s.now
        · simp [jwtVerify, he]
        · right; right
          exact ⟨c, e, rfl, by omega, by simp [jwtVerify, he]⟩
      | badClaims c e => simp [jwtVerify]
      | badSig raw => simp [jwtVerify]

/-- Membership in the user table after `updateRefreshToken`: a row either
carries the written value or was already present. -/
theorem updateRefreshToken_mem {s : St} {uid : String} {rt : Option Tok}
    {u : User} (h : u ∈ (updateRefreshToken s uid rt).users) :
    u.refreshToken = rt ∨ u ∈ s.users := by
  unfold updateRefreshToken at h
  rcases List.mem_map.mp h with ⟨v, hv, rfl⟩
  by_cases hid : v.id = uid
  · left; simp [hid]
  · right; simpa [hid] using hv

/-- Unchanged user list plus a non-decreasing counter is an evolution. -/
theorem evolves_of_users_eq {s s' : St} (hu : s'.users = s.users)
    (hf : s.fresh ≤ s'.fresh) : Evolves s s' := by
  refine ⟨hf, ?_, ?_⟩
  · intro u' hu'
    rw [hu] at hu'
    exact Or.inl ⟨u', hu', rfl⟩
  · intro v hv
    exact ⟨v, by rw [hu]; exact hv, rfl⟩

/-- `Evolves` is reflexive. -/
theorem evolves_refl (s : St) : Evolves s s := evolves_of_users_eq rfl le_rfl

/-- Rewriting each row with an id-preserving function whose only
refresh-token writes are the single value `rt` — `none` or a freshly minted
token — is an evolution. -/
theorem evolves_of_users_map (f : User → User) (rt : Option Tok) {s s' : St}
    (hu : s'.users = s.users.map f)
    (hf : s.fresh ≤ s'.fresh)
    (hid : ∀ v, (f v).id = v.id)
    (hrt : ∀ v, (f v).refreshToken = v.refreshToken ∨ (f v).refreshToken = rt)
    (hfr : rt = none ∨ ∃ c' e', rt = some (Tok.signed c' e') ∧ s.fresh ≤ c'.jti) :
    Evolves s s' := by
  refine ⟨hf, ?_, ?_⟩
  · intro u' hu'
    rw [hu] at hu'
    rcases List.mem_map.mp hu' with ⟨v, hv, rfl⟩
    rcases hrt v with h | h
    · exact Or.inl ⟨v, hv, h⟩
    · rcases hfr with hn | ⟨c', e', hrt', hj⟩
      · right; left; rw [h, hn]
      · right; right; exact ⟨c', e', by rw [h, hrt'], hj⟩
  · intro v hv
    exact ⟨f v, by rw [hu]; exact List.mem_map_of_mem f hv, hid v⟩

/-- Prepending a row with a null refresh-token column is an evolution. -/
theorem evolves_cons {s s' : St} {u : User}
    (hu : s'.users = u :: s.users) (hf : s.fresh ≤ s'.fresh)
    (hrt : u.refreshToken = none) : Evolves s s' := by
  refine ⟨hf, ?_, ?_⟩
  · intro u' hu'
    rw [hu] at hu'
    rcases List.mem_cons.mp hu' with rfl | h
    · exact Or.inr (Or.inl hrt)
    · exact Or.inl ⟨u', h, rfl⟩
  · intro v hv
    exact ⟨v, by rw [hu]; exact List.mem_cons_of_mem u hv, rfl⟩

/-- Shape of the state after `login`: unchanged, or a rotation write of a
freshly minted refresh token for the authenticated user. -/
theorem login_snd (cfg : Cfg) (s : St) (email pw : String) :
    (login cfg s email pw).2 = s ∨
    ∃ u, findByEmail s email = some u ∧
      (login cfg s email pw).2 =
        updateRefreshToken { s with fresh := s.fresh + 2 } u.id
          (some (Tok.signed ⟨u.id, none, none, s.fresh + 1, "refresh"⟩
            (s.now + cfg.refreshTtl))) := by
  unfold login
  cases hf : findByEmail s email with
  | none => left; rfl
  | some u =>
    dsimp only
    by_cases hp : cfg.pwMatches pw u.password = true
    · right
      refine ⟨u, rfl, ?_⟩
      rw [if_pos hp]
      rfl
    · left
      rw [if_neg hp]

/-- Shape of the state after `register`: unchanged, or one new row with a
null refresh-token column. -/
theorem register_snd (cfg : Cfg) (s : St) (name email pw : String) :
    (register cfg s name email pw).2 = s ∨
    (register cfg s name email pw).2 =
      { s with
        users := ⟨"user-" ++ toString s.fresh, name, email, cfg.mkHash pw,
          "USER", none⟩ :: s.users,
        fresh := s.fresh + 1 } := by
  unfold register
  cases hf : findByEmail s email with
  | some u => left; rfl
  | none =>
    dsimp only
    by_cases hp : isStrongPassword pw = true
    · right; rw [if_pos hp]
    · left; rw [if_neg hp]

/-- The state component of the refresh write phase is the blacklist write
applied after the rotation write. -/
theorem refreshStep2_snd (cfg : Cfg) (s : St) (t : Tok) (u : User) :
    (refreshStep2 cfg s t u).2 =
      (blacklistToken cfg
        (updateRefreshToken { s with fresh := s.fresh + 2 } u.id
          (some (Tok.signed ⟨u.id, none, none, s.fresh + 1, "refresh"⟩
            (s.now + cfg.refreshTtl)))) t).2 := rfl

/-- Shape of the state after the full (serialized) refresh operation. -/
theorem refresh_snd (cfg : Cfg) (s : St) (t : Tok) :
    (refresh cfg s t).2 = s ∨
    ∃ u, refreshStep1 cfg s t = .ok u ∧
      (refresh cfg s t).2 = (refreshStep2 cfg s t u).2 := by
  unfold refresh
  cases h1 : refreshStep1 cfg s t with
  | error e => left; rfl
  | ok u => right; exact ⟨u, rfl, rfl⟩

/-- Shape of the state after `logout`. -/
theorem logout_snd (cfg : Cfg) (s : St) (uid : String) (t : Tok) :
    (logout cfg s uid t).2 = (blacklistToken cfg s t).2 ∨
    (logout cfg s uid t).2 =
      updateRefreshToken (blacklistToken cfg s t).2 uid none := by
  unfold logout
  cases hbl : (blacklistToken cfg s t).1 with
  | error e => left; rfl
  | ok u => right; rfl

/-- The user table after `updateRefreshToken`, as a map. -/
theorem updateRefreshToken_users (s : St) (uid : String) (rt : Option Tok) :
    (updateRefreshToken s uid rt).users =
      s.users.map fun v =>
        if v.id = uid then { v with refreshToken := rt } else v := rfl

/-- `updateRefreshToken` keeps the freshness counter. -/
theorem updateRefreshToken_fresh (s : St) (uid : String) (rt : Option Tok) :
    (updateRefreshToken s uid rt).fresh = s.fresh := rfl

/-- Shape of the state after `changePassword`: unchanged, or the password
rewrite alone, or the password rewrite followed by the blacklist write, or
all of that followed by clearing the refresh-token column. -/
theorem changePassword_snd (cfg : Cfg) (s : St) (uid currentPw newPw : String) :
    (changePassword cfg s uid currentPw newPw).2 = s ∨
    (changePassword cfg s uid currentPw newPw).2 =
      updatePassword cfg s uid newPw ∨
    (∃ rt, (changePassword cfg s uid currentPw newPw).2 =
        (blacklistToken cfg (updatePassword cfg s uid newPw) rt).2) ∨
    (∃ rt, (changePassword cfg s uid currentPw newPw).2 =
        updateRefreshToken
          (blacklistToken cfg (updatePassword cfg s uid newPw) rt).2 uid none) := by
  unfold changePassword
  cases hf : findById s uid with
  | none => exact Or.inl rfl
  | some u =>
    dsimp only
    by_cases h1 : cfg.pwMatches currentPw u.password = true
    · rw [if_pos h1]
      by_cases h2 : isStrongPassword newPw = true
      · rw [if_pos h2]
        by_cases h3 : currentPw = newPw
        · rw [if_pos h3]; exact Or.inl rfl
        · rw [if_neg h3]
          cases hrt : u.refreshToken with
          | none => exact Or.inr (Or.inl rfl)
          | some rt =>
            dsimp only
            cases hbl : (blacklistToken cfg (updatePassword cfg s uid newPw) rt).1 with
            | error e => exact Or.inr (Or.inr (Or.inl ⟨rt, rfl⟩))
            | ok v => exact Or.inr (Or.inr (Or.inr ⟨rt, rfl⟩))
      · rw [if_neg h2]; exact Or.inl rfl
    · rw [if_neg h1]; exact Or.inl rfl

/-- Every public operation, under every deployment condition, is an
evolution step: it only clears refresh-token columns or writes freshly
minted tokens, never decreases the counter, and never removes a user id. -/
theorem evolves_applyOp (cfg : Cfg) (s : St) (op : Op) :
    Evolves s (applyOp cfg s op) := by
  cases op with
  | login email pw =>
    show Evolves s (login cfg s email pw).2
    rcases login_snd cfg s email pw with h | ⟨u, -, h⟩
    · rw [h]; exact evolves_refl s
    · rw [h]
      apply evolves_of_users_map
        (fun v => if v.id = u.id then
          { v with refreshToken := some (Tok.signed
              ⟨u.id, none, none, s.fresh + 1, "refresh"⟩
              (s.now + cfg.refreshTtl)) } else v)
        (some (Tok.signed ⟨u.id, none, none, s.fresh + 1, "refresh"⟩
          (s.now + cfg.refreshTtl)))
      · rfl
      · exact Nat.le_add_right _ 2
      · intro v; by_cases hid : v.id = u.id <;> simp [hid]
      · intro v; by_cases hid : v.id = u.id <;> simp [hid]
      · exact Or.inr ⟨_, _, rfl, Nat.le_add_right _ 1⟩
  | register name email pw =>
    show Evolves s (register cfg s name email pw).2
    rcases register_snd cfg s name email pw with h | h
    · rw [h]; exact evolves_refl s
    · rw [h]
      exact evolves_cons rfl (Nat.le_add_right _ 1) rfl
  | refresh t =>
    show Evolves s (refresh cfg s t).2
    rcases refresh_snd cfg s t with h | ⟨u, -, h⟩
    · rw [h]; exact evolves_refl s
    · rw [h, refreshStep2_snd]
      apply evolves_of_users_map
        (fun v => if v.id = u.id then
          { v with refreshToken := some (Tok.signed
              ⟨u.id, none, none, s.fresh + 1, "refresh"⟩
              (s.now + cfg.refreshTtl)) } else v)
        (some (Tok.signed ⟨u.id, none, none, s.fresh + 1, "refresh"⟩
          (s.now + cfg.refreshTtl)))
      · rw [(blacklistToken_users cfg _ t).1, updateRefreshToken_users]
      · rw [(blacklistToken_users cfg _ t).2.1, updateRefreshToken_fresh]
        exact Nat.le_add_right _ 2
      · intro v; by_cases hid : v.id = u.id <;> simp [hid]
      · intro v; by_cases hid : v.id = u.id <;> simp [hid]
      · exact Or.inr ⟨_, _, rfl, Nat.le_add_right _ 1⟩
  | logout uid t =>
    show Evolves s (logout cfg s uid t).2
    rcases logout_snd cfg s uid t with h | h
    · rw [h]
      exact evolves_of_users_eq (blacklistToken_users cfg s t).1
        (le_of_eq (blacklistToken_users cfg s t).2.1.symm)
    · rw [h]
      apply evolves_of_users_map
        (fun v => if v.id = uid then { v with refreshToken := none } else v) none
      · rw [updateRefreshToken_users, (blacklistToken_users cfg s t).1]
      · rw [updateRefreshToken_fresh, (blacklistToken_users cfg s t).2.1]
      · intro v; by_cases hid : v.id = uid <;> simp [hid]
      · intro v; by_cases hid : v.id = uid <;> simp [hid]
      · exact Or.inl rfl
  | changePassword uid cpw npw =>
    show Evolves s (changePassword cfg s uid cpw npw).2
    rcases changePassword_snd cfg s uid cpw npw with h | h | ⟨rt, h⟩ | ⟨rt, h⟩
    · rw [h]; exact evolves_refl s
    · rw [h]
      apply evolves_of_users_map
        (fun v => if v.id = uid then { v with password := cfg.mkHash npw } else v)
        none
      · rfl
      · exact le_rfl
      · intro v; by_cases hid : v.id = uid <;> simp [hid]
      · intro v; by_cases hid : v.id = uid <;> simp [hid]
      · exact Or.inl rfl
    · rw [h]
      apply evolves_of_users_map
        (fun v => if v.id = uid then { v with password := cfg.mkHash npw } else v)
        none
      · rw [(blacklistToken_users cfg _ rt).1]; rfl
      · rw [(blacklistToken_users cfg _ rt).2.1]; exact le_rfl
      · intro v; by_cases hid : v.id = uid <;> simp [hid]
      · intro v; by_cases hid : v.id = uid <;> simp [hid]
      · exact Or.inl rfl
    · rw [h]
      apply evolves_of_users_map
        ((fun v => if v.id = uid then { v with refreshToken := none } else v) ∘
         (fun v => if v.id = uid then { v with password := cfg.mkHash npw } else v))
        none
      · rw [updateRefreshToken_users, (blacklistToken_users cfg _ rt).1]
        rw [show (updatePassword cfg s uid npw).users =
            s.users.map (fun v =>
              if v.id = uid then { v with password := cfg.mkHash npw } else v)
          from rfl, List.map_map]
      · rw [updateRefreshToken_fresh, (blacklistToken_users cfg _ rt).2.1]
        exact le_rfl
      · intro v; by_cases hid : v.id = uid <;> simp [Function.comp, hid]
      · intro v; by_cases hid : v.id = uid <;> simp [Function.comp, hid]
      · exact Or.inl rfl
  | tick dt =>
    exact evolves_of_users_eq rfl le_rfl

/-- `Dead` transports along evolution steps. -/
theorem dead_of_evolves {c : Claims} {e : Nat} {s s' : St}
    (hd : Dead c e s) (hev : Evolves s s') : Dead c e s' := by
  obtain ⟨hf, hu, hid⟩ := hev
  obtain ⟨hnone, hjti, u0, hu0, hu0id⟩ := hd
  refine ⟨?_, lt_of_lt_of_le hjti hf, ?_⟩
  · intro u' hu'
    rcases hu u' hu' with ⟨v, hv, heq⟩ | h | ⟨c', e', hrt, hj⟩
    · rw [heq]; exact hnone v hv
    · rw [h]; simp
    · rw [hrt]
      intro hcontra
      have h2 := Option.some.inj hcontra
      injection h2 with hc he2
      rw [hc] at hj
      omega
  · rcases hid u0 hu0 with ⟨u', hu', hid'⟩
    exact ⟨u', hu', by rw [hid', hu0id]⟩

/-- `Dead` is preserved by every server step. -/
theorem dead_step {c : Claims} {e : Nat} {s s' : St}
    (hst : Step s s') (hd : Dead c e s) : Dead c e s' := by
  obtain ⟨cfg, op, rfl⟩ := hst
  exact dead_of_evolves hd (evolves_applyOp cfg s op)

/-- `Dead` is preserved by reachability. -/
theorem dead_reachable {c : Claims} {e : Nat} {s s' : St}
    (hr : Reachable s s') (hd : Dead c e s) : Dead c e s' := by
  have hr' : Relation.ReflTransGen Step s s' := hr
  clear hr
  induction hr' with
  | refl => exact hd
  | tail hab hbc ih => exact dead_step hbc ih

/-- Inversion of a successful refresh read phase: the token is well signed
and unexpired, the subject's user row exists, and its stored refresh-token
column equals the presented raw token. -/
theorem refreshStep1_ok_inv {cfg : Cfg} {s : St} {t : Tok} {u : User}
    (h : refreshStep1 cfg s t = .ok u) :
    ∃ c e, t = Tok.signed c e ∧ s.now < e ∧ findById s c.sub = some u ∧
      u.refreshToken = some t := by
  rcases verifyToken_cases cfg s t with hv | hv | ⟨c, e, rfl, he, hv⟩
  · exfalso
    simp only [refreshStep1, hv] at h
    exact Except.noConfusion h
  · exfalso
    simp only [refreshStep1, hv] at h
    exact Except.noConfusion h
  · refine ⟨c, e, rfl, he, ?_⟩
    cases hf : findById s c.sub with
    | none =>
      exfalso
      simp only [refreshStep1, hv, hf] at h
      exact Except.noConfusion h
    | some v =>
      simp only [refreshStep1, hv, hf] at h
      by_cases hrt : v.refreshToken = some (Tok.signed c e)
      · rw [if_pos hrt] at h
        injection h with hvu
        subst hvu
        exact ⟨rfl, hrt⟩
      · exfalso
        rw [if_neg hrt] at h
        exact Except.noConfusion h

/-- Inversion of a failed refresh read phase: the three possible errors. -/
theorem refreshStep1_error_inv {cfg : Cfg} {s : St} {t : Tok} {er : Err}
    (h : refreshStep1 cfg s t = .error er) :
    er = ⟨.unauthorized, "Token inválido ou expirado"⟩ ∨
    (∃ c e, t = Tok.signed c e ∧ er = ⟨.notFound, "Usuário"⟩ ∧
      findById s c.sub = none) ∨
    er = ⟨.unauthorized, "Token inválido"⟩ := by
  rcases verifyToken_cases cfg s t with hv | hv | ⟨c, e, rfl, he, hv⟩
  · left
    simp only [refreshStep1, hv] at h
    injection h with h'
    exact h'.symm
  · left
    simp only [refreshStep1, hv] at h
    injection h with h'
    exact h'.symm
  · cases hf : findById s c.sub with
    | none =>
      right; left
      refine ⟨c, e, rfl, ?_, hf⟩
      simp only [refreshStep1, hv, hf] at h
      injection h with h'
      exact h'.symm
    | some v =>
      right; right
      simp only [refreshStep1, hv, hf] at h
      by_cases hrt : v.refreshToken = some (Tok.signed c e)
      · exfalso
        rw [if_pos hrt] at h
        exact Except.noConfusion h
      · rw [if_neg hrt] at h
        injection h with h'
        exact h'.symm

/-- A dead token can never refresh again: the serialized refresh operation
fails, with an authentication error. -/
theorem refresh_rejected_of_dead {cfg : Cfg} {s : St} {c : Claims} {e : Nat}
    (hd : Dead c e s) :
    ∃ er, (refresh cfg s (Tok.signed c e)).1 = .error er ∧
      er.kind = .unauthorized := by
  obtain ⟨hnone, hjti, u0, hu0, hu0id⟩ := hd
  cases h1 : refreshStep1 cfg s (Tok.signed c e) with
  | ok u =>
    exfalso
    obtain ⟨c', e', heq, he', hfind, hrt⟩ := refreshStep1_ok_inv h1
    have hfind' : s.users.find? (fun v => decide (v.id = c'.sub)) = some u := hfind
    exact hnone u (List.mem_of_find?_eq_some hfind') hrt
  | error er =>
    have hres : (refresh cfg s (Tok.signed c e)).1 = .error er := by
      unfold refresh
      rw [h1]
    refine ⟨er, hres, ?_⟩
    rcases refreshStep1_error_inv h1 with h | ⟨c', e', heq, her, hfind⟩ | h
    · rw [h]
    · exfalso
      injection heq with hc he2
      rw [← hc] at hfind
      unfold findById at hfind
      have hnot := (List.find?_eq_none.mp hfind) u0 hu0
      exact hnot (decide_eq_true hu0id)
    · rw [h]

/-- A successful refresh from a well-formed state leaves the presented
token dead: no user row holds it any more, its token id sits below the
counter, and the subject's user row still exists. -/
theorem dead_after_refresh_success {cfg : Cfg} {s s₁ : St} {t : Tok}
    {r : TokenPair} (hwf : WF s)
    (hsucc : refresh cfg s t = (.ok r, s₁)) :
    ∃ c e, t = Tok.signed c e ∧ Dead c e s₁ := by
  obtain ⟨hwf1, hwf2⟩ := hwf
  cases h1 : refreshStep1 cfg s t with
  | error er =>
    exfalso
    unfold refresh at hsucc
    rw [h1] at hsucc
    simp at hsucc
  | ok u =>
    obtain ⟨c, e, rfl, he, hfind, hrt⟩ := refreshStep1_ok_inv h1
    have hfind' : s.users.find? (fun v => decide (v.id = c.sub)) = some u := hfind
    have hmem : u ∈ s.users := List.mem_of_find?_eq_some hfind'
    have hpu := List.find?_some (p := fun (v : Express.User) => decide (v.id = c.sub)) hfind'
    have huid : u.id = c.sub := of_decide_eq_true hpu
    have hjti : c.jti < s.fresh := by
      have hx := hwf1 u hmem
      rw [hrt] at hx
      exact hx
    have hs₁ : s₁ = (refreshStep2 cfg s (Tok.signed c e) u).2 := by
      unfold refresh at hsucc
      rw [h1] at hsucc
      exact (congrArg Prod.snd hsucc).symm
    have husers : s₁.users =
        s.users.map (fun v => if v.id = u.id then
          { v with refreshToken := some (Tok.signed
              ⟨u.id, none, none, s.fresh + 1, "refresh"⟩ (s.now + cfg.refreshTtl)) }
          else v) := by
      rw [hs₁, refreshStep2_snd, (blacklistToken_users cfg _ _).1,
        updateRefreshToken_users]
    have hfreshs₁ : s₁.fresh = s.fresh + 2 := by
      rw [hs₁, refreshStep2_snd, (blacklistToken_users cfg _ _).2.1,
        updateRefreshToken_fresh]
    refine ⟨c, e, rfl, ?_, ?_, ?_⟩
    · intro u' hu'
      rw [husers] at hu'
      rcases List.mem_map.mp hu' with ⟨v, hv, rfl⟩
      by_cases hid : v.id = u.id
      · rw [if_pos hid]
        intro hcontra
        have h2 := Option.some.inj hcontra
        injection h2 with hc he2
        have h3 : s.fresh + 1 = c.jti := congrArg Claims.jti hc
        omega
      · rw [if_neg hid]
        intro hcontra
        have hvu := hwf2 u hmem v hv
          (by rw [hrt]; exact Option.some_ne_none _)
          (by rw [hrt, hcontra])
        exact hid (congrArg User.id hvu).symm
    · rw [hfreshs₁]; omega
    · rw [husers]
      refine ⟨_, List.mem_map_of_mem _ hmem, ?_⟩
      simp [huid]

end Express

/-- **C1, amended** — in the Express (rotating) implementation: once a
refresh with raw token `t` has succeeded from a well-formed state, every
subsequent refresh with the same `t`, in any state reachable by any
sequence of public operations under any deployment conditions, fails with
an authentication (`UnauthorizedError`) error and never returns a token
pair.  (The NestJS `refreshTokens` operation does not satisfy the original
claim — see the counterexample.) -/
theorem c1_refresh_replay_rejected (cfg cfg' : Express.Cfg)
    (s₀ s₁ s : Express.St) (t : Express.Tok) (r : Express.TokenPair)
    (hwf : Express.WF s₀)
    (hsucc : Express.refresh cfg s₀ t = (.ok r, s₁))
    (hreach : Express.Reachable s₁ s) :
    ∃ er, (Express.refresh cfg' s t).1 = .error er ∧
      er.kind = .unauthorized := by
  obtain ⟨c, e, rfl, hd⟩ := Express.dead_after_refresh_success hwf hsucc
  exact Express.refresh_rejected_of_dead (Express.dead_reachable hreach hd)

/-- Witness for C1 (amended): the sample refresh succeeds once and its
immediate replay is rejected with an unauthorized error. -/
theorem c1_witness :
    ∃ er, (Express.refresh Samples.eCfgUp Samples.eSt1 Samples.eTok0).1 =
        .error er ∧ er.kind = .unauthorized :=
  c1_refresh_replay_rejected Samples.eCfgUp Samples.eCfgUp Samples.eSt0
    Samples.eSt1 Samples.eSt1 Samples.eTok0 ⟨Samples.eAcc1, Samples.eRef1⟩
    (by decide) (by rfl) Relation.ReflTransGen.refl

/-- **C1, counterexample** — the NestJS refresh operation
(`AuthService.refreshTokens`) does not rotate: exchanging the same raw
refresh value `"rawA"` twice succeeds both times (the session row is left
untouched), contradicting the claim that every call after the first
succeeding one fails. -/
theorem c1_counterexample_nest_refresh_reusable :
    (Nest.refreshTokens Samples.nCfg Samples.nSt "rawA").1 =
      .ok ⟨"u1", none, none, none⟩ ∧
    (Nest.refreshTokens Samples.nCfg
        (Nest.refreshTokens Samples.nCfg Samples.nSt "rawA").2 "rawA").1 =
      .ok ⟨"u1", none, none, none⟩ :=
  ⟨rfl, rfl⟩

/-- **C2, amended** — in the NestJS session-registry implementation, a
successful login persists exactly one new session row, and its
`tokenHash` column holds `sha256` of the raw refresh value returned to the
caller — the raw value itself is not stored.  (The Express implementation
violates the original claim by persisting the raw token — see the
counterexample.) -/
theorem c2_sessions_store_only_hash (cfg : Nest.Cfg) (s : Nest.St)
    (email pw : String) (resp : Nest.LoginResp) (s' : Nest.St)
    (h : Nest.login cfg s email pw = (.ok resp, s')) :
    s'.sessions =
      ⟨resp.accessToken.sub, cfg.sha256 resp.refreshToken,
        s.now + Nest.parseDuration (cfg.refreshExpirationStr.getD "7d")⟩ ::
        s.sessions := by
  unfold Nest.login at h
  cases hv : Nest.validateUser cfg s email pw with
  | error e => rw [hv] at h; exact absurd (congrArg Prod.fst h) (by simp)
  | ok u =>
    rw [hv] at h
    dsimp only at h
    by_cases hm : (s.memberships.filter fun m => decide (m.userId = u.id)).isEmpty = true
    · rw [if_pos hm] at h
      exact absurd (congrArg Prod.fst h) (by simp)
    · rw [if_neg hm] at h
      injection h with hfst hsnd
      injection hfst with hresp
      rw [← hsnd, ← hresp]
      rfl

/-- Witness for C2 (amended) at a concrete login. -/
theorem c2_witness :
    ((Nest.login Samples.nCfg Samples.nSt "a@x.com" "pw1").2).sessions =
      ⟨"u1", Samples.nCfg.sha256 "raw0",
        Samples.nSt.now + Nest.parseDuration "7d"⟩ :: Samples.nSt.sessions :=
  c2_sessions_store_only_hash Samples.nCfg Samples.nSt "a@x.com" "pw1"
    ⟨⟨"u1", none, none, none⟩, "raw0"⟩
    ((Nest.login Samples.nCfg Samples.nSt "a@x.com" "pw1").2) (by rfl)

/-- **C2, counterexample** — the Express implementation persists the raw
refresh credential: after the sample login, the user row's `refreshToken`
column holds exactly the raw token returned to the caller (`eRef1`), not a
one-way hash of it. -/
theorem c2_counterexample_raw_token_persisted :
    (Express.login Samples.eCfgUp Samples.eSt0 "a@x.com" "Correct1!").1 =
      .ok ⟨Samples.eAcc1, Samples.eRef1⟩ ∧
    Express.findById
        (Express.login Samples.eCfgUp Samples.eSt0 "a@x.com" "Correct1!").2
        "u1" =
      some { Samples.eUser0 with refreshToken := some Samples.eRef1 } :=
  ⟨rfl, rfl⟩

/-- **C3, amended** — when the two refresh requests are serialized, exactly
one succeeds: after a successful refresh of `t` from a well-formed state,
the second request (under any deployment conditions) is rejected with an
authentication error.  (Interleaved, both may succeed — see the
counterexample.) -/
theorem c3_serialized_refresh_exactly_one (cfg cfg' : Express.Cfg)
    (s₀ s₁ : Express.St) (t : Express.Tok) (r : Express.TokenPair)
    (hwf : Express.WF s₀)
    (hsucc : Express.refresh cfg s₀ t = (.ok r, s₁)) :
    ∃ er, (Express.refresh cfg' s₁ t).1 = .error er ∧
      er.kind = .unauthorized := by
  obtain ⟨c, e, rfl, hd⟩ := Express.dead_after_refresh_success hwf hsucc
  exact Express.refresh_rejected_of_dead hd

/-- Witness for C3 (amended) at the sample state. -/
theorem c3_witness :
    ∃ er, (Express.refresh Samples.eCfgDown Samples.eSt1 Samples.eTok0).1 =
        .error er ∧ er.kind = .unauthorized :=
  c3_serialized_refresh_exactly_one Samples.eCfgUp Samples.eCfgDown
    Samples.eSt0 Samples.eSt1 Samples.eTok0 ⟨Samples.eAcc1, Samples.eRef1⟩
    (by decide) (by rfl)

/-- **C3, counterexample** — the rotation write is a plain read-compare-write
with no compare-and-swap, so two refresh requests carrying the same raw
token `eTok0`, interleaved as read₁ read₂ write₁ write₂, **both succeed**:
both read phases run against the untouched state `eSt0` (so the single
hypothesis below covers both), then both write phases are applied in turn
and both return fresh token pairs, contradicting "never both succeed". -/
theorem c3_counterexample_concurrent_double_success :
    Express.refreshStep1 Samples.eCfgUp Samples.eSt0 Samples.eTok0 =
      .ok Samples.eUser0 ∧
    (Express.refreshStep2 Samples.eCfgUp Samples.eSt0 Samples.eTok0
        Samples.eUser0).1 = .ok ⟨Samples.eAcc1, Samples.eRef1⟩ ∧
    (Express.refreshStep2 Samples.eCfgUp
        (Express.refreshStep2 Samples.eCfgUp Samples.eSt0 Samples.eTok0
          Samples.eUser0).2
        Samples.eTok0 Samples.eUser0).1 = .ok ⟨Samples.eAcc2, Samples.eRef2⟩ :=
  ⟨rfl, rfl, rfl⟩

end AuthVerif
